import Mathlib

/-!
Verification development for the carbon-footprint tracker.

The numeric semantics of the JavaScript source (src/app.js, src/unnamed/part_001)
is embedded over the rationals: JavaScript numbers are modelled as exact
rationals, and a raw DOM input that is missing or fails to parse as a number
(so that parseFloat yields NaN) is modelled as the value `none` of `Option Rat`.
Over this exact-arithmetic model the NaN branch of the code guard
`isNaN(totalTonnes) || totalTonnes < 0` is unreachable, so only the sign test
remains in `finalTotalTonnes`.
-/

/-- One record of the emission-factor table, mirroring
CONFIG.emissionFactors.transport in src/app.js line 16. -/
structure TransportFactors where
  car : Rat
  flightShort : Rat
  publicTransport : Rat
deriving DecidableEq

/-- Mirrors CONFIG.emissionFactors.energy, src/app.js line 17. -/
structure EnergyFactors where
  electricity : Rat
  gas : Rat
deriving DecidableEq

/-- Mirrors CONFIG.emissionFactors.food, src/app.js line 18. -/
structure FoodFactors where
  meatMeal : Rat
  dairyServing : Rat
deriving DecidableEq

/-- Mirrors CONFIG.emissionFactors.waste, src/app.js line 19. -/
structure WasteFactors where
  wasteBag : Rat
  recyclingOffset : Rat
deriving DecidableEq

/-- Mirrors CONFIG.emissionFactors.shopping, src/app.js line 20. -/
structure ShoppingFactors where
  general : Rat
  electronics : Rat
deriving DecidableEq

/-- The full emission-factor table consumed by calculateFootprint. -/
structure EmissionFactors where
  transport : TransportFactors
  energy : EnergyFactors
  food : FoodFactors
  waste : WasteFactors
  shopping : ShoppingFactors
deriving DecidableEq

/-- The slice of a CONFIG object that calculateFootprint reads:
the emissionFactors field (which may be absent, modelling a config object
without a usable factor table) and conversions.kgToTonnes (absent models a
missing conversions record or a missing kgToTonnes field). -/
structure AppConfig where
  emissionFactors : Option EmissionFactors
  kgToTonnes : Option Rat
deriving DecidableEq

/-- The hard-coded fallback factor table of getConfig, src/app.js lines 15-21. -/
def fallbackFactors : EmissionFactors :=
  { transport := { car := 0.41, flightShort := 0.158, publicTransport := 0.053 }
    energy := { electricity := 0.233, gas := 5.3 }
    food := { meatMeal := 7.19, dairyServing := 2.5 }
    waste := { wasteBag := 2.5, recyclingOffset := -1.2 }
    shopping := { general := 0.005, electronics := 50 } }

/-- The fallback CONFIG object returned by getConfig when no CONFIG global is
defined, src/app.js lines 13-26 (restricted to the fields the calculator reads:
emissionFactors and conversions.kgToTonnes = 0.001). -/
def fallbackConfig : AppConfig :=
  { emissionFactors := some fallbackFactors, kgToTonnes := some 0.001 }

/-- The state of the global CONFIG binding when getConfig runs:
the identifier may be undefined (typeof CONFIG is the string undefined),
defined but null, or bound to a config object. -/
inductive JSGlobal
  | undef
  | nullv
  | obj (c : AppConfig)
deriving DecidableEq

/-- A resolved config value as getConfig returns it: either null
(CONFIG was defined as null and returned unchanged) or an object. -/
inductive ConfigVal
  | nullv
  | obj (c : AppConfig)
deriving DecidableEq

/-- Embedding of getConfig, src/app.js lines 4-27: if the CONFIG global is
defined (even as null) it is returned as is; otherwise window.CONFIG is used
when truthy; otherwise the hard-coded fallback config is returned. -/
def getConfig (g : JSGlobal) (w : Option AppConfig) : ConfigVal :=
  match g with
  | .undef =>
    match w with
    | some c => .obj c
    | none => .obj fallbackConfig
  | .nullv => .nullv
  | .obj c => .obj c

/-- Raw calculator inputs as read from the DOM, one field per input element of
calculateFootprint (src/app.js lines 329-409). `none` models a missing element
or a value on which parseFloat yields NaN; `some v` models a successful parse. -/
structure CalcInput where
  carMiles : Option Rat
  flights : Option Rat
  publicTransport : Option Rat
  electricity : Option Rat
  gas : Option Rat
  renewable : Option Rat
  meatMeals : Option Rat
  dairyProducts : Option Rat
  localFood : Option Rat
  wasteBags : Option Rat
  recycling : Option Rat
  shoppingSpend : Option Rat
  electronics : Option Rat
deriving DecidableEq

/-- The all-absent input: every calculator field missing or blank. -/
def emptyInput : CalcInput :=
  { carMiles := none, flights := none, publicTransport := none,
    electricity := none, gas := none, renewable := none,
    meatMeals := none, dairyProducts := none, localFood := none,
    wasteBags := none, recycling := none, shoppingSpend := none,
    electronics := none }

/-- Embedding of the safeParseFloat helper, src/app.js lines 317-325:
a missing element or NaN parse yields 0, a negative value yields 0,
otherwise the parsed value is returned. -/
def safeParseFloat : Option Rat → Rat
  | none => 0
  | some v => if v < 0 then 0 else v

/-- Local carMilesPerDay, src/app.js line 329. -/
def carMilesPerDay (i : CalcInput) : Rat := safeParseFloat i.carMiles

/-- Local flightsPerDay, src/app.js line 330. -/
def flightsPerDay (i : CalcInput) : Rat := safeParseFloat i.flights

/-- Local publicTransportPerDay, src/app.js line 331. -/
def publicTransportPerDay (i : CalcInput) : Rat := safeParseFloat i.publicTransport

/-- Local electricityPerDay, src/app.js line 351. -/
def electricityPerDay (i : CalcInput) : Rat := safeParseFloat i.electricity

/-- Local gasPerDay, src/app.js line 352. -/
def gasPerDay (i : CalcInput) : Rat := safeParseFloat i.gas

/-- Local renewablePercent with its 0-100 clamp, src/app.js line 353. -/
def renewablePercent (i : CalcInput) : Rat :=
  min 100 (max 0 (safeParseFloat i.renewable))

/-- Local meatMealsPerDay, src/app.js line 370. -/
def meatMealsPerDay (i : CalcInput) : Rat := safeParseFloat i.meatMeals

/-- Local dairyPerDay, src/app.js line 371. -/
def dairyPerDay (i : CalcInput) : Rat := safeParseFloat i.dairyProducts

/-- Local localFoodPercent with its 0-100 clamp, src/app.js line 372. -/
def localFoodPercent (i : CalcInput) : Rat :=
  min 100 (max 0 (safeParseFloat i.localFood))

/-- Local wasteBagsPerDay, src/app.js line 390. -/
def wasteBagsPerDay (i : CalcInput) : Rat := safeParseFloat i.wasteBags

/-- Local recyclingPercent with its 0-100 clamp, src/app.js line 391. -/
def recyclingPercent (i : CalcInput) : Rat :=
  min 100 (max 0 (safeParseFloat i.recycling))

/-- Local shoppingSpendPerDay, src/app.js line 408. -/
def shoppingSpendPerDay (i : CalcInput) : Rat := safeParseFloat i.shoppingSpend

/-- Local electronicsPerDay, src/app.js line 409. -/
def electronicsPerDay (i : CalcInput) : Rat := safeParseFloat i.electronics

/-- Local transportCarCo2e, src/app.js line 333. -/
def transportCarCo2e (i : CalcInput) (f : EmissionFactors) : Rat :=
  carMilesPerDay i * f.transport.car

/-- Local transportFlightsCo2e, src/app.js line 334 (1000 km per flight). -/
def transportFlightsCo2e (i : CalcInput) (f : EmissionFactors) : Rat :=
  flightsPerDay i * 1000 * f.transport.flightShort

/-- Local transportPublicCo2e, src/app.js line 335. -/
def transportPublicCo2e (i : CalcInput) (f : EmissionFactors) : Rat :=
  publicTransportPerDay i * f.transport.publicTransport

/-- Local electricityEmissions, src/app.js line 355. -/
def electricityEmissions (i : CalcInput) (f : EmissionFactors) : Rat :=
  electricityPerDay i * f.energy.electricity * (1 - renewablePercent i / 100)

/-- Local gasCo2e, src/app.js line 356. -/
def gasCo2e (i : CalcInput) (f : EmissionFactors) : Rat :=
  gasPerDay i * f.energy.gas

/-- Local meatReduction, src/app.js line 374: at most 20 percent reduction
for local food, floored at 0.8. -/
def meatReduction (i : CalcInput) : Rat :=
  max 0.8 (1 - localFoodPercent i / 100 * 0.2)

/-- Local foodMeatCo2e, src/app.js line 375. -/
def foodMeatCo2e (i : CalcInput) (f : EmissionFactors) : Rat :=
  meatMealsPerDay i * f.food.meatMeal * meatReduction i

/-- Local foodDairyCo2e, src/app.js line 376. -/
def foodDairyCo2e (i : CalcInput) (f : EmissionFactors) : Rat :=
  dairyPerDay i * f.food.dairyServing

/-- Local wasteEmissions, src/app.js line 393. -/
def wasteEmissions (i : CalcInput) (f : EmissionFactors) : Rat :=
  wasteBagsPerDay i * f.waste.wasteBag

/-- Local recyclingOffset, src/app.js line 394: the offset uses the absolute
value of the recyclingOffset factor. -/
def recyclingOffset (i : CalcInput) (f : EmissionFactors) : Rat :=
  wasteEmissions i f * (recyclingPercent i / 100) * |f.waste.recyclingOffset|

/-- Local wasteCo2e, src/app.js line 395: not floored at 0 per category. -/
def wasteCo2e (i : CalcInput) (f : EmissionFactors) : Rat :=
  wasteEmissions i f - recyclingOffset i f

/-- Local shoppingCo2e, src/app.js line 411. -/
def shoppingCo2e (i : CalcInput) (f : EmissionFactors) : Rat :=
  shoppingSpendPerDay i * f.shopping.general

/-- Local electronicsCo2e, src/app.js line 412. -/
def electronicsCo2e (i : CalcInput) (f : EmissionFactors) : Rat :=
  electronicsPerDay i * f.shopping.electronics

/-- The accumulated totalCo2e in kg, src/app.js lines 314-415, summed in the
order of the += statements. -/
def totalCo2e (i : CalcInput) (f : EmissionFactors) : Rat :=
  transportCarCo2e i f + transportFlightsCo2e i f + transportPublicCo2e i f +
    electricityEmissions i f + gasCo2e i f +
    foodMeatCo2e i f + foodDairyCo2e i f +
    wasteCo2e i f +
    shoppingCo2e i f + electronicsCo2e i f

/-- The effective kgToTonnes conversion, src/app.js line 425:
CONFIG.conversions?.kgToTonnes with a falsy-coalescing default of 0.001. -/
def kgToTonnesEff : Option Rat → Rat
  | none => 0.001
  | some q => if q = 0 then 0.001 else q

/-- Local totalTonnes, src/app.js line 426. -/
def totalTonnes (i : CalcInput) (f : EmissionFactors) (k : Option Rat) : Rat :=
  totalCo2e i f * kgToTonnesEff k

/-- Local finalTotalTonnes, src/app.js line 434: over exact rationals the
isNaN branch is unreachable, leaving the clamp of negative totals to 0. -/
def finalTotalTonnes (i : CalcInput) (f : EmissionFactors) (k : Option Rat) : Rat :=
  if totalTonnes i f k < 0 then 0 else totalTonnes i f k

/-- The per-category breakdown in tonnes stored with a calculation,
src/app.js lines 440-446. -/
structure Breakdown where
  transport : Rat
  energy : Rat
  food : Rat
  waste : Rat
  shopping : Rat
deriving DecidableEq

/-- The record assigned to appState.currentCalculation,
src/app.js lines 436-447. -/
structure CalcRecord where
  co2e : Rat
  category : String
  timestamp : String
  breakdown : Breakdown
deriving DecidableEq

/-- The calculation result built by calculateFootprint, src/app.js
lines 301-447, as a function of the raw inputs, the factor table, the
optional kgToTonnes conversion and the clock reading used for the timestamp. -/
def calculateFootprint (i : CalcInput) (f : EmissionFactors) (k : Option Rat)
    (now : String) : CalcRecord :=
  { co2e := finalTotalTonnes i f k
    category := "mixed"
    timestamp := now
    breakdown :=
      { transport := (transportCarCo2e i f + transportFlightsCo2e i f +
          transportPublicCo2e i f) * kgToTonnesEff k
        energy := (electricityEmissions i f + gasCo2e i f) * kgToTonnesEff k
        food := (foodMeatCo2e i f + foodDairyCo2e i f) * kgToTonnesEff k
        waste := wasteCo2e i f * kgToTonnesEff k
        shopping := (shoppingCo2e i f + electronicsCo2e i f) * kgToTonnesEff k } }

/-- The sum of the five breakdown categories. -/
def breakdownSum (b : Breakdown) : Rat :=
  b.transport + b.energy + b.food + b.waste + b.shopping

/-- The slice of the mutable appState that calculateFootprint writes,
src/app.js lines 38-42 and 436-447. -/
structure AppState where
  currentCalculation : Option CalcRecord
deriving DecidableEq

/-- The top of calculateFootprint, src/app.js lines 301-473: resolve CONFIG
with getConfig; if the resolved value is falsy or has no emissionFactors field
the function alerts and returns false without touching appState; otherwise it
computes the result, stores it in appState.currentCalculation and returns
true. -/
def runCalculateFootprint (g : JSGlobal) (w : Option AppConfig) (st : AppState)
    (i : CalcInput) (now : String) : Bool × AppState :=
  match getConfig g w with
  | .nullv => (false, st)
  | .obj c =>
    match c.emissionFactors with
    | none => (false, st)
    | some f =>
      (true, { st with currentCalculation := some (calculateFootprint i f c.kgToTonnes now) })

/-- The projection of a stored calculation onto its clock-independent
content: total, breakdown and category tag. -/
def resultCore (st : AppState) : Option (Rat × Breakdown × String) :=
  st.currentCalculation.map fun r => (r.co2e, r.breakdown, r.category)

/-- Direction of the change reported by the comparison block of
displayCalculationResult: nocomp models the absence of any comparison text. -/
inductive TrendDirection
  | nocomp
  | reduction
  | increase
  | unchanged
deriving DecidableEq

/-- The comparison outcome of the block at src/app.js lines 530-545:
the computed difference and percent change (absent when no comparison is
shown) and the reported direction. -/
structure ComparisonResult where
  delta : Option Rat
  percentChange : Option Rat
  direction : TrendDirection
deriving DecidableEq

/-- The previous log entry as the comparison block consumes it: its co2e
field may be absent (undefined), modelled as none. -/
structure PrevCalc where
  co2e : Option Rat
deriving DecidableEq

/-- Embedding of the comparison logic of displayCalculationResult,
src/app.js lines 508-545, as a function of the displayed (clamped) current
value and the previous log entry. A zero display value takes the empty-input
branch of the guard at line 517, which shows a generic message and never
reaches the comparison block, so no comparison is reported. Inside the block
(lines 530-545) the guard is the JavaScript truthiness test
previousCalculation && previousCalculation.co2e, so a null entry, an absent
co2e or a zero co2e yields no comparison, while any nonzero co2e (negative
included) enters the comparison. percentChange falls back to 0 when the
previous value is not positive (line 534); the deadband compares the absolute
difference against 0.01 (line 536) and the sign of the difference picks
reduction or increase (lines 537-541). -/
def compareWithPrevious (displayValue : Rat) (previous : Option PrevCalc) :
    ComparisonResult :=
  if displayValue = 0 then
    { delta := none, percentChange := none, direction := .nocomp }
  else
    match previous with
    | none => { delta := none, percentChange := none, direction := .nocomp }
    | some p =>
      match p.co2e with
      | none => { delta := none, percentChange := none, direction := .nocomp }
      | some q =>
        if q = 0 then { delta := none, percentChange := none, direction := .nocomp }
        else
          let previousValue := q
          let difference := displayValue - previousValue
          let percentChange : Rat :=
            if 0 < previousValue then difference / previousValue * 100 else 0
          if 0.01 < |difference| then
            if difference < 0 then
              { delta := some difference, percentChange := some percentChange,
                direction := .reduction }
            else
              { delta := some difference, percentChange := some percentChange,
                direction := .increase }
          else
            { delta := some difference, percentChange := some percentChange,
              direction := .unchanged }

/-- The payload handed to api.saveCarbonLog by saveCalculation,
src/app.js lines 614-621. -/
structure LogData where
  category : String
  co2e : Rat
  value : Rat
  notes : String
  timestamp : String
  date : String
deriving DecidableEq

/-- A stored carbon-log entry, as built in API.saveCarbonLog,
src/unnamed/part_001 lines 154-158. -/
structure LogEntry where
  id : String
  category : String
  co2e : Rat
  value : Rat
  notes : String
  date : String
  timestamp : String
deriving DecidableEq

/-- The newLog object of API.saveCarbonLog, src/unnamed/part_001 lines
154-158: the id and the spread of logData, with the timestamp key written
after the spread so it overrides the timestamp carried in logData. -/
def mkNewLog (d : LogData) (idStr now : String) : LogEntry :=
  { id := idStr, category := d.category, co2e := d.co2e, value := d.value,
    notes := d.notes, date := d.date, timestamp := now }

/-- Embedding of API.getCarbonLogs, src/unnamed/part_001 lines 172-175:
localStorage holds either no carbonLogs item (none) or a JSON array of
entries; an absent item reads as the empty list. The JSON round trip is
modelled as the identity on the entry list. -/
def getCarbonLogs (storage : Option (List LogEntry)) : List LogEntry :=
  match storage with
  | none => []
  | some logs => logs

/-- Embedding of the storage effect of API.saveCarbonLog, src/unnamed/part_001
lines 152-170: read the current log array, push the new entry at its end and
write the array back. The demo-mode network branch does not touch storage. -/
def saveCarbonLog (storage : Option (List LogEntry)) (d : LogData)
    (idStr now : String) : List LogEntry :=
  (getCarbonLogs storage).concat (mkNewLog d idStr now)

/-- Identifier of one raw calculator input field. -/
inductive FieldId
  | carMiles | flights | publicTransport | electricity | gas | renewable
  | meatMeals | dairyProducts | localFood | wasteBags | recycling
  | shoppingSpend | electronics
deriving DecidableEq

/-- Replace one raw input field. -/
def setField (fld : FieldId) (v : Option Rat) (i : CalcInput) : CalcInput :=
  match fld with
  | .carMiles => { i with carMiles := v }
  | .flights => { i with flights := v }
  | .publicTransport => { i with publicTransport := v }
  | .electricity => { i with electricity := v }
  | .gas => { i with gas := v }
  | .renewable => { i with renewable := v }
  | .meatMeals => { i with meatMeals := v }
  | .dairyProducts => { i with dairyProducts := v }
  | .localFood => { i with localFood := v }
  | .wasteBags => { i with wasteBags := v }
  | .recycling => { i with recycling := v }
  | .shoppingSpend => { i with shoppingSpend := v }
  | .electronics => { i with electronics := v }

/-- The three percent-clamped fields. -/
inductive PercentField
  | renewable | localFood | recycling
deriving DecidableEq

/-- The raw field behind a percent field. -/
def percentField : PercentField → FieldId
  | .renewable => .renewable
  | .localFood => .localFood
  | .recycling => .recycling

/-- A first demo clock reading. -/
def tsDemo : String := "t1"

/-- A second, different demo clock reading. -/
def tsDemo2 : String := "t2"

/-- The concrete input of the waste example: 2 waste bags per day and
100 percent recycling, all other fields blank. -/
def wasteExampleInput : CalcInput :=
  { emptyInput with wasteBags := some 2, recycling := some 100 }

/-- The factor table of the waste example: wasteBag 2.5 and recyclingOffset
-1.2 as in the fallback table, every other factor 0 so that the waste
category is the whole total. -/
def wasteExampleFactors : EmissionFactors :=
  { transport := { car := 0, flightShort := 0, publicTransport := 0 }
    energy := { electricity := 0, gas := 0 }
    food := { meatMeal := 0, dairyServing := 0 }
    waste := { wasteBag := 2.5, recyclingOffset := -1.2 }
    shopping := { general := 0, electronics := 0 } }

/-! Helper lemmas shared by the claim theorems. -/

/-- The sanitizer never produces a negative value. -/
theorem safeParseFloat_nonneg (o : Option Rat) : 0 ≤ safeParseFloat o := by
  cases o with
  | none => simp [safeParseFloat]
  | some v =>
    simp only [safeParseFloat]
    split
    · exact le_refl 0
    · next h => exact not_lt.mp h

/-- Every sanitized per-day quantity of the empty input is 0. -/
theorem carMilesPerDay_empty : carMilesPerDay emptyInput = 0 := rfl

/-- The clamped renewable percentage of the empty input is 0. -/
theorem renewablePercent_empty : renewablePercent emptyInput = 0 := by
  simp [renewablePercent, emptyInput, safeParseFloat]

/-- The clamped local-food percentage of the empty input is 0. -/
theorem localFoodPercent_empty : localFoodPercent emptyInput = 0 := by
  simp [localFoodPercent, emptyInput, safeParseFloat]

/-- The clamped recycling percentage of the empty input is 0. -/
theorem recyclingPercent_empty : recyclingPercent emptyInput = 0 := by
  simp [recyclingPercent, emptyInput, safeParseFloat]

/-- On the empty input every category contributes 0 kg, for any factor
table, since every sanitized quantity is 0. -/
theorem totalCo2e_empty (f : EmissionFactors) : totalCo2e emptyInput f = 0 := by
  simp [totalCo2e, transportCarCo2e, transportFlightsCo2e, transportPublicCo2e,
    electricityEmissions, gasCo2e, foodMeatCo2e, foodDairyCo2e,
    wasteEmissions, recyclingOffset, wasteCo2e, shoppingCo2e, electronicsCo2e,
    carMilesPerDay, flightsPerDay, publicTransportPerDay, electricityPerDay,
    gasPerDay, meatMealsPerDay, dairyPerDay, wasteBagsPerDay,
    shoppingSpendPerDay, electronicsPerDay, emptyInput, safeParseFloat]

/-- The raw total in tonnes of the empty input is 0. -/
theorem totalTonnes_empty (f : EmissionFactors) (k : Option Rat) :
    totalTonnes emptyInput f k = 0 := by
  simp [totalTonnes, totalCo2e_empty]

/-- calculateFootprint is a congruence of the thirteen sanitized input
quantities: two raw inputs with equal sanitized values produce equal
results for every factor table, conversion and clock reading. -/
theorem calculateFootprint_congr (i1 i2 : CalcInput)
    (h1 : carMilesPerDay i1 = carMilesPerDay i2)
    (h2 : flightsPerDay i1 = flightsPerDay i2)
    (h3 : publicTransportPerDay i1 = publicTransportPerDay i2)
    (h4 : electricityPerDay i1 = electricityPerDay i2)
    (h5 : gasPerDay i1 = gasPerDay i2)
    (h6 : renewablePercent i1 = renewablePercent i2)
    (h7 : meatMealsPerDay i1 = meatMealsPerDay i2)
    (h8 : dairyPerDay i1 = dairyPerDay i2)
    (h9 : localFoodPercent i1 = localFoodPercent i2)
    (h10 : wasteBagsPerDay i1 = wasteBagsPerDay i2)
    (h11 : recyclingPercent i1 = recyclingPercent i2)
    (h12 : shoppingSpendPerDay i1 = shoppingSpendPerDay i2)
    (h13 : electronicsPerDay i1 = electronicsPerDay i2)
    (f : EmissionFactors) (k : Option Rat) (now : String) :
    calculateFootprint i1 f k now = calculateFootprint i2 f k now := by
  simp only [calculateFootprint, finalTotalTonnes, totalTonnes, totalCo2e,
    transportCarCo2e, transportFlightsCo2e, transportPublicCo2e,
    electricityEmissions, gasCo2e, meatReduction, foodMeatCo2e, foodDairyCo2e,
    wasteEmissions, recyclingOffset, wasteCo2e, shoppingCo2e, electronicsCo2e]
  rw [h1, h2, h3, h4, h5, h6, h7, h8, h9, h10, h11, h12, h13]

/-- Claim C3: for every input, factor table and conversion, the stored
co2e total is non-negative, and it equals the raw total clamped below at 0:
whenever the raw total in tonnes is negative the stored and reported value
is 0 (over the exact-arithmetic model the non-finite case cannot arise, so
the clamp reduces to the sign test). -/
theorem c3_clamp_thm (i : CalcInput) (f : EmissionFactors) (k : Option Rat)
    (now : String) :
    0 ≤ (calculateFootprint i f k now).co2e ∧
    (calculateFootprint i f k now).co2e = max 0 (totalTonnes i f k) := by
  have hco : (calculateFootprint i f k now).co2e = finalTotalTonnes i f k := rfl
  rw [hco]
  unfold finalTotalTonnes
  rcases lt_or_le (totalTonnes i f k) 0 with h | h
  · rw [if_pos h, max_eq_left h.le]
    exact ⟨le_refl 0, rfl⟩
  · rw [if_neg (not_lt.mpr h), max_eq_right h]
    exact ⟨h, rfl⟩

/-- Claim C5: computing with the empty input (all fields absent) produces a
result whose co2e total is 0, for every factor table and conversion. -/
theorem c5_zero_input_thm (f : EmissionFactors) (k : Option Rat) (now : String) :
    (calculateFootprint emptyInput f k now).co2e = 0 := by
  have hco : (calculateFootprint emptyInput f k now).co2e =
      finalTotalTonnes emptyInput f k := rfl
  rw [hco]
  unfold finalTotalTonnes
  rw [totalTonnes_empty]
  simp

/-- Claim C7: whenever the total-only clamp does not fire (the raw total in
tonnes is non-negative), the five breakdown categories sum exactly to the
stored co2e total, hence in particular within the 1e-9 tolerance. -/
theorem c7_additivity_thm (i : CalcInput) (f : EmissionFactors) (k : Option Rat)
    (now : String) (h : 0 ≤ totalTonnes i f k) :
    breakdownSum (calculateFootprint i f k now).breakdown =
      (calculateFootprint i f k now).co2e ∧
    |breakdownSum (calculateFootprint i f k now).breakdown -
      (calculateFootprint i f k now).co2e| ≤ 1 / 1000000000 := by
  have hmain : breakdownSum (calculateFootprint i f k now).breakdown =
      (calculateFootprint i f k now).co2e := by
    have hco : (calculateFootprint i f k now).co2e = finalTotalTonnes i f k := rfl
    rw [hco]
    unfold finalTotalTonnes
    rw [if_neg (not_lt.mpr h)]
    simp only [calculateFootprint, breakdownSum, totalTonnes, totalCo2e]
    ring
  refine ⟨hmain, ?_⟩
  rw [hmain, sub_self, abs_zero]
  norm_num

/-- Witness for C7 at the empty input and the fallback factor table. -/
theorem c7_additivity_witness :
    0 ≤ totalTonnes emptyInput fallbackFactors none ∧
    (breakdownSum (calculateFootprint emptyInput fallbackFactors none tsDemo).breakdown =
      (calculateFootprint emptyInput fallbackFactors none tsDemo).co2e ∧
    |breakdownSum (calculateFootprint emptyInput fallbackFactors none tsDemo).breakdown -
      (calculateFootprint emptyInput fallbackFactors none tsDemo).co2e| ≤ 1 / 1000000000) :=
  ⟨by rw [totalTonnes_empty],
   c7_additivity_thm emptyInput fallbackFactors none tsDemo
     (by rw [totalTonnes_empty])⟩

/-- Claim C8: the waste category is the bag emissions minus the recycling
offset computed from the magnitude of the recyclingOffset factor, with no
per-category floor: with 2 waste bags per day, 100 percent recycling,
wasteBag 2.5 and recyclingOffset -1.2, the waste contribution is -1 kg,
the stored waste breakdown is -0.001 tonnes, and only the grand total is
clamped to 0. -/
theorem c8_waste_thm :
    (∀ i f, wasteCo2e i f =
      wasteBagsPerDay i * f.waste.wasteBag -
        wasteBagsPerDay i * f.waste.wasteBag * (recyclingPercent i / 100) *
          |f.waste.recyclingOffset|) ∧
    wasteCo2e wasteExampleInput wasteExampleFactors = -1 ∧
    (calculateFootprint wasteExampleInput wasteExampleFactors none tsDemo).breakdown.waste
      = -(1 / 1000) ∧
    (calculateFootprint wasteExampleInput wasteExampleFactors none tsDemo).co2e = 0 := by
  have hw : wasteBagsPerDay wasteExampleInput = 2 := by
    norm_num [wasteBagsPerDay, wasteExampleInput, emptyInput, safeParseFloat]
  have hr : recyclingPercent wasteExampleInput = 100 := by
    norm_num [recyclingPercent, wasteExampleInput, emptyInput, safeParseFloat]
  have habs : |wasteExampleFactors.waste.recyclingOffset| = 1.2 := by
    rw [show wasteExampleFactors.waste.recyclingOffset = -1.2 from rfl,
      abs_of_neg (by norm_num : (-1.2 : Rat) < 0)]
    norm_num
  have hwc : wasteCo2e wasteExampleInput wasteExampleFactors = -1 := by
    rw [wasteCo2e, recyclingOffset, wasteEmissions, hw, hr, habs,
      show wasteExampleFactors.waste.wasteBag = 2.5 from rfl]
    norm_num
  have htot : totalCo2e wasteExampleInput wasteExampleFactors = -1 := by
    simp only [totalCo2e, transportCarCo2e, transportFlightsCo2e,
      transportPublicCo2e, electricityEmissions, gasCo2e, foodMeatCo2e,
      foodDairyCo2e, shoppingCo2e, electronicsCo2e, hwc,
      show wasteExampleFactors.transport.car = 0 from rfl,
      show wasteExampleFactors.transport.flightShort = 0 from rfl,
      show wasteExampleFactors.transport.publicTransport = 0 from rfl,
      show wasteExampleFactors.energy.electricity = 0 from rfl,
      show wasteExampleFactors.energy.gas = 0 from rfl,
      show wasteExampleFactors.food.meatMeal = 0 from rfl,
      show wasteExampleFactors.food.dairyServing = 0 from rfl,
      show wasteExampleFactors.shopping.general = 0 from rfl,
      show wasteExampleFactors.shopping.electronics = 0 from rfl]
    ring
  refine ⟨fun i f => rfl, hwc, ?_, ?_⟩
  · have hb : (calculateFootprint wasteExampleInput wasteExampleFactors none
        tsDemo).breakdown.waste =
        wasteCo2e wasteExampleInput wasteExampleFactors * kgToTonnesEff none := rfl
    rw [hb, hwc]
    norm_num [kgToTonnesEff]
  · have hc : (calculateFootprint wasteExampleInput wasteExampleFactors none
        tsDemo).co2e = finalTotalTonnes wasteExampleInput wasteExampleFactors none := rfl
    rw [hc, finalTotalTonnes, totalTonnes, htot]
    norm_num [kgToTonnesEff]

/-- Claim C10: saving a log appends exactly one entry at the end of the
stored array, leaves every previously stored entry unchanged, and the new
entry carries the data fields of the payload (its timestamp field is
written from the clock after the payload spread). -/
theorem c10_append_thm (L : List LogEntry) (d : LogData) (idStr now : String) :
    saveCarbonLog (some L) d idStr now = L ++ [mkNewLog d idStr now] ∧
    (saveCarbonLog (some L) d idStr now).length = L.length + 1 ∧
    (saveCarbonLog (some L) d idStr now).take L.length = L ∧
    (mkNewLog d idStr now).category = d.category ∧
    (mkNewLog d idStr now).co2e = d.co2e ∧
    (mkNewLog d idStr now).value = d.value ∧
    (mkNewLog d idStr now).notes = d.notes ∧
    (mkNewLog d idStr now).date = d.date := by
  have h : saveCarbonLog (some L) d idStr now = L ++ [mkNewLog d idStr now] := by
    simp [saveCarbonLog, getCarbonLogs, List.concat_eq_append]
  refine ⟨h, ?_, ?_, rfl, rfl, rfl, rfl, rfl⟩
  · rw [h]
    simp
  · rw [h]
    exact List.take_left L [mkNewLog d idStr now]

/-- Claim C1, counterexample: with no CONFIG defined at all (the factor table
entirely missing), calculateFootprint does not fail — it returns true and
stores a result computed from the silently substituted fallback factor
table, contradicting the claim that a missing table yields a
distinguishable error outcome. -/
theorem c1_counterexample :
    (runCalculateFootprint .undef none ⟨none⟩ emptyInput tsDemo).1 = true ∧
    (runCalculateFootprint .undef none ⟨none⟩ emptyInput tsDemo).2.currentCalculation =
      some (calculateFootprint emptyInput fallbackFactors (some 0.001) tsDemo) :=
  ⟨rfl, rfl⟩

/-- Claim C1 as amended: calculateFootprint fails with a distinguishable
error outcome (returns false, appState untouched) exactly when the resolved
CONFIG value is unusable — a defined-but-null CONFIG, or a config object
without an emissionFactors field; when no CONFIG is defined at all, getConfig
silently substitutes the built-in fallback table and the computation
proceeds. -/
theorem c1_amended_thm (c : AppConfig) (hc : c.emissionFactors = none)
    (w : Option AppConfig) (st : AppState) (i : CalcInput) (now : String) :
    runCalculateFootprint (.obj c) w st i now = (false, st) ∧
    runCalculateFootprint .nullv w st i now = (false, st) := by
  constructor
  · simp [runCalculateFootprint, getConfig, hc]
  · rfl

/-- Witness for the amended C1 at a config object with no factor table. -/
theorem c1_amended_witness :
    (AppConfig.mk none none).emissionFactors = none ∧
    (runCalculateFootprint (.obj (AppConfig.mk none none)) none ⟨none⟩ emptyInput tsDemo
        = (false, ⟨none⟩) ∧
      runCalculateFootprint .nullv none ⟨none⟩ emptyInput tsDemo = (false, ⟨none⟩)) :=
  ⟨rfl, c1_amended_thm (AppConfig.mk none none) rfl none ⟨none⟩ emptyInput tsDemo⟩

/-- Claim C2, counterexample: a previous entry whose co2e is -1 is not a
positive number, yet the comparison block still computes a delta and
classifies the change (direction increase with a delta of 2 for a current
value of 1), because the code guard is JavaScript truthiness of co2e, not
positivity. -/
theorem c2_counterexample :
    (compareWithPrevious 1 (some ⟨some (-1)⟩)).direction = TrendDirection.increase ∧
    (compareWithPrevious 1 (some ⟨some (-1)⟩)).delta = some 2 := by
  have habs : |(1 : Rat) - -1| = 2 := by
    rw [abs_of_pos (by norm_num : (0 : Rat) < 1 - -1)]
    norm_num
  constructor <;>
    · simp only [compareWithPrevious]
      norm_num [habs]

/-- Claim C2 as amended: the comparison yields no delta, no percent change
and no direction whenever the previous entry is null or its co2e field is
falsy — absent (undefined or NaN) or zero; a present negative co2e, in
contrast, still produces a classification. -/
theorem c2_amended_thm (p : Option PrevCalc)
    (h : p = none ∨ p = some ⟨none⟩ ∨ p = some ⟨some 0⟩) (dv : Rat) :
    compareWithPrevious dv p =
      { delta := none, percentChange := none, direction := .nocomp } := by
  rcases h with h | h | h <;> subst h <;>
    (by_cases hdv : dv = 0 <;> simp [compareWithPrevious, hdv])

/-- Witness for the amended C2 with no previous entry at all. -/
theorem c2_amended_witness :
    ((none : Option PrevCalc) = none ∨ (none : Option PrevCalc) = some ⟨none⟩ ∨
      (none : Option PrevCalc) = some ⟨some 0⟩) ∧
    compareWithPrevious 0 none =
      { delta := none, percentChange := none, direction := .nocomp } :=
  ⟨Or.inl rfl, c2_amended_thm none (Or.inl rfl) 0⟩

/-- Claim C4, counterexample: at a current display value of 0 with a positive
previous co2e of 1, the delta is -1 < -0.01, so the claim as stated requires
direction reduction for this pair; but the program takes the zero-display
branch of the guard at src/app.js line 517 and reports no comparison at all. -/
theorem c4_counterexample :
    ((0 : Rat) - 1 < -0.01) ∧
    (compareWithPrevious 0 (some ⟨some 1⟩)).direction ≠ TrendDirection.reduction ∧
    compareWithPrevious 0 (some ⟨some 1⟩) =
      { delta := none, percentChange := none, direction := .nocomp } := by
  refine ⟨by norm_num, ?_, ?_⟩ <;> simp [compareWithPrevious]

/-- Claim C4 as amended: when the current display value is nonzero and the
previous co2e is a positive number q, the comparison computes
delta = current - q and percentChange = delta / q * 100, and classifies
reduction exactly when delta < -0.01, increase exactly when delta > 0.01,
and unchanged exactly otherwise (absolute delta at most 0.01); a zero
current display value instead takes the empty-input branch and reports no
comparison. -/
theorem c4_deadband_thm (dv q : Rat) (hdv : dv ≠ 0) (hq : 0 < q) :
    (compareWithPrevious dv (some ⟨some q⟩)).delta = some (dv - q) ∧
    (compareWithPrevious dv (some ⟨some q⟩)).percentChange =
      some ((dv - q) / q * 100) ∧
    ((compareWithPrevious dv (some ⟨some q⟩)).direction = TrendDirection.reduction ↔
      dv - q < -0.01) ∧
    ((compareWithPrevious dv (some ⟨some q⟩)).direction = TrendDirection.increase ↔
      (0.01 : Rat) < dv - q) ∧
    ((compareWithPrevious dv (some ⟨some q⟩)).direction = TrendDirection.unchanged ↔
      |dv - q| ≤ 0.01) := by
  have hne : ¬ q = 0 := hq.ne'
  have hunf : compareWithPrevious dv (some ⟨some q⟩) =
      if 0.01 < |dv - q| then
        if dv - q < 0 then
          { delta := some (dv - q), percentChange := some ((dv - q) / q * 100),
            direction := .reduction }
        else
          { delta := some (dv - q), percentChange := some ((dv - q) / q * 100),
            direction := .increase }
      else
        { delta := some (dv - q), percentChange := some ((dv - q) / q * 100),
          direction := .unchanged } := by
    simp only [compareWithPrevious]
    rw [if_neg hdv, if_neg hne, if_pos hq]
  rw [hunf]
  by_cases h1 : (0.01 : Rat) < |dv - q|
  · by_cases h2 : dv - q < 0
    · rw [if_pos h1, if_pos h2]
      have hd : dv - q < -0.01 := by
        rw [abs_of_neg h2] at h1
        linarith
      exact ⟨rfl, rfl, iff_of_true rfl hd,
        iff_of_false (by simp) (by linarith),
        iff_of_false (by simp) (not_le.mpr h1)⟩
    · rw [if_pos h1, if_neg h2]
      have hd : (0.01 : Rat) < dv - q := by
        rw [abs_of_nonneg (not_lt.mp h2)] at h1
        exact h1
      exact ⟨rfl, rfl,
        iff_of_false (by simp) (by linarith),
        iff_of_true rfl hd,
        iff_of_false (by simp) (not_le.mpr h1)⟩
  · rw [if_neg h1]
    have hle : |dv - q| ≤ 0.01 := not_lt.mp h1
    have hab := abs_le.mp hle
    exact ⟨rfl, rfl,
      iff_of_false (by simp) (not_lt.mpr hab.1),
      iff_of_false (by simp) (not_lt.mpr hab.2),
      iff_of_true rfl hle⟩

/-- Witness for the amended C4 at the claimed example of current 1.02
against a previous value of 1. -/
theorem c4_deadband_witness :
    ((1.02 : Rat) ≠ 0) ∧ (0 : Rat) < 1 ∧
    ((compareWithPrevious 1.02 (some ⟨some 1⟩)).delta = some (1.02 - 1) ∧
     (compareWithPrevious 1.02 (some ⟨some 1⟩)).percentChange =
       some ((1.02 - 1) / 1 * 100) ∧
     ((compareWithPrevious 1.02 (some ⟨some 1⟩)).direction =
        TrendDirection.reduction ↔ (1.02 : Rat) - 1 < -0.01) ∧
     ((compareWithPrevious 1.02 (some ⟨some 1⟩)).direction =
        TrendDirection.increase ↔ (0.01 : Rat) < 1.02 - 1) ∧
     ((compareWithPrevious 1.02 (some ⟨some 1⟩)).direction =
        TrendDirection.unchanged ↔ |(1.02 : Rat) - 1| ≤ 0.01)) :=
  ⟨by norm_num, by norm_num, c4_deadband_thm 1.02 1 (by norm_num) (by norm_num)⟩

set_option maxHeartbeats 8000000 in
/-- Claim C6: replacing a negative raw value of any field by 0, or a missing
or unparsable raw value by 0, leaves the whole calculation result (total and
breakdown) unchanged; and for the three percent fields, any raw value above
100 behaves identically to 100 (values below 0 are covered by the first
part, since the sanitizer maps them to 0 before the clamp). -/
theorem c6_clamping_thm (i : CalcInput) (f : EmissionFactors) (k : Option Rat)
    (now : String) (fld : FieldId) (pf : PercentField) (v w : Rat)
    (hv : v < 0) (hw : 100 < w) :
    calculateFootprint (setField fld (some v) i) f k now =
      calculateFootprint (setField fld (some 0) i) f k now ∧
    calculateFootprint (setField fld none i) f k now =
      calculateFootprint (setField fld (some 0) i) f k now ∧
    calculateFootprint (setField (percentField pf) (some w) i) f k now =
      calculateFootprint (setField (percentField pf) (some 100) i) f k now := by
  have hsv : safeParseFloat (some v) = safeParseFloat (some 0) := by
    simp [safeParseFloat, hv]
  have hsn : safeParseFloat none = safeParseFloat (some 0) := by
    simp [safeParseFloat]
  have hw0 : ¬ w < 0 := by linarith
  have hsw : min 100 (max 0 (safeParseFloat (some w))) =
      min 100 (max 0 (safeParseFloat (some 100))) := by
    simp only [safeParseFloat]
    rw [if_neg hw0, if_neg (by norm_num : ¬ (100 : Rat) < 0),
      max_eq_right (by linarith : (0 : Rat) ≤ w),
      max_eq_right (by norm_num : (0 : Rat) ≤ 100),
      min_eq_left hw.le, min_self]
  refine ⟨?_, ?_, ?_⟩
  · cases fld <;>
      (apply calculateFootprint_congr <;>
        simp [setField, carMilesPerDay, flightsPerDay, publicTransportPerDay,
          electricityPerDay, gasPerDay, renewablePercent, meatMealsPerDay,
          dairyPerDay, localFoodPercent, wasteBagsPerDay, recyclingPercent,
          shoppingSpendPerDay, electronicsPerDay, hsv])
  · cases fld <;>
      (apply calculateFootprint_congr <;>
        simp [setField, carMilesPerDay, flightsPerDay, publicTransportPerDay,
          electricityPerDay, gasPerDay, renewablePercent, meatMealsPerDay,
          dairyPerDay, localFoodPercent, wasteBagsPerDay, recyclingPercent,
          shoppingSpendPerDay, electronicsPerDay, hsn])
  · cases pf <;>
      (apply calculateFootprint_congr <;>
        simp [setField, percentField, carMilesPerDay, flightsPerDay,
          publicTransportPerDay, electricityPerDay, gasPerDay, renewablePercent,
          meatMealsPerDay, dairyPerDay, localFoodPercent, wasteBagsPerDay,
          recyclingPercent, shoppingSpendPerDay, electronicsPerDay, hsw])

/-- Witness for C6 at the car-miles field with raw value -1 and the
renewable percentage with raw value 150. -/
theorem c6_clamping_witness :
    ((-1 : Rat) < 0) ∧ ((100 : Rat) < 150) ∧
    (calculateFootprint (setField .carMiles (some (-1)) emptyInput)
        fallbackFactors none tsDemo =
      calculateFootprint (setField .carMiles (some 0) emptyInput)
        fallbackFactors none tsDemo ∧
    calculateFootprint (setField .carMiles none emptyInput)
        fallbackFactors none tsDemo =
      calculateFootprint (setField .carMiles (some 0) emptyInput)
        fallbackFactors none tsDemo ∧
    calculateFootprint (setField (percentField .renewable) (some 150) emptyInput)
        fallbackFactors none tsDemo =
      calculateFootprint (setField (percentField .renewable) (some 100) emptyInput)
        fallbackFactors none tsDemo) :=
  ⟨by norm_num, by norm_num,
    c6_clamping_thm emptyInput fallbackFactors none tsDemo .carMiles .renewable
      (-1) 150 (by norm_num) (by norm_num)⟩

/-- Claim C9, counterexample: two runs with equal inputs and equal factor
tables but different clock readings store different CalculationResults,
because the stored record embeds a wall-clock timestamp; the results of the
two runs are therefore not equal as the claim states. -/
theorem c9_counterexample :
    (runCalculateFootprint .undef none ⟨none⟩ emptyInput tsDemo).2.currentCalculation ≠
      (runCalculateFootprint .undef none ⟨none⟩ emptyInput tsDemo2).2.currentCalculation := by
  intro h
  have h1 : some (calculateFootprint emptyInput fallbackFactors (some 0.001) tsDemo) =
      some (calculateFootprint emptyInput fallbackFactors (some 0.001) tsDemo2) := h
  have h2 := congrArg CalcRecord.timestamp (Option.some.inj h1)
  have h3 : tsDemo = tsDemo2 := h2
  exact absurd h3 (by decide)

/-- Claim C9 as amended: the run is a pure function of input, factors and
clock; its Boolean outcome and the clock-independent content of the stored
result (total, breakdown, category) do not depend on the prior application
state, the window config or the clock reading — only the timestamp field
differs between runs at different times. -/
theorem c9_amended_thm (c : AppConfig) (f : EmissionFactors)
    (hc : c.emissionFactors = some f) (w1 w2 : Option AppConfig)
    (st1 st2 : AppState) (i : CalcInput) (t1 t2 : String) :
    (runCalculateFootprint (.obj c) w1 st1 i t1).1 = true ∧
    resultCore (runCalculateFootprint (.obj c) w1 st1 i t1).2 =
      resultCore (runCalculateFootprint (.obj c) w2 st2 i t2).2 := by
  simp [runCalculateFootprint, getConfig, hc, resultCore, calculateFootprint]

/-- Witness for the amended C9 at the fallback config and two distinct
clock readings. -/
theorem c9_amended_witness :
    fallbackConfig.emissionFactors = some fallbackFactors ∧
    ((runCalculateFootprint (.obj fallbackConfig) none ⟨none⟩ emptyInput tsDemo).1 = true ∧
      resultCore (runCalculateFootprint (.obj fallbackConfig) none ⟨none⟩ emptyInput tsDemo).2 =
        resultCore (runCalculateFootprint (.obj fallbackConfig) none ⟨none⟩ emptyInput tsDemo2).2) :=
  ⟨rfl, c9_amended_thm fallbackConfig fallbackFactors rfl none none ⟨none⟩ ⟨none⟩
    emptyInput tsDemo tsDemo2⟩
